import Mathlib

/-!
Shallow embedding of the Tridishti session-tracking core:
the session coordinator (`YatraManager`, src/core/yatra-manager.ts), the
checkpoint tracker (`SutraCheckpoints`), the milestone tracker (`KarmaPhala`),
the drift detector (`DharmaSankata`) and the knowledge store (`JnanaCapture`).

Modelling conventions:
- `Date.now()` timestamps are passed in explicitly as `now : Nat` arguments
  (JavaScript is single threaded; each method call observes one instant).
- The unique id generator (timestamp + random suffix) is modelled by a
  per-module `nextId : Nat` counter; ids are unique across the process
  lifetime, which is all the source relies on.
- JavaScript `Map` objects are modelled as insertion-ordered association
  lists; `Map.set` replaces the value in place when the key exists and
  appends otherwise, and `Array.from(map.values())` is the list of values in
  insertion order.
- Methods that `throw` are modelled with `Except String`; a throw leaves the
  state unchanged (the sources throw before any mutation).
- External side effects (git commit / git tag subprocess calls, the dirty
  file provider, persistence) are inputs: the dirty-file set and the result
  of the commit/tag subprocess are parameters of the corresponding call.
- Events fired on the shared `vscode.EventEmitter` are returned explicitly
  and delivered synchronously to the coordinator handler (`handleCoreEvent`).
-/

namespace Tridishti

/-! ## Milestone tracker data (src/core/types.ts, karma-phala.ts) -/

/-- Milestone status: active, completed or abandoned in the source. -/
inductive MilestoneStatus
  | active
  | completed
  | abandoned
deriving DecidableEq

/-- The `IMilestone` record. -/
structure IMilestone where
  id : Nat
  name : String
  createdAt : Nat
  targetDuration : Option Nat
  status : MilestoneStatus
  completedAt : Option Nat := none
deriving DecidableEq

/-- The `IKarmaPhala` milestone-outcome record. -/
structure IKarmaPhala where
  id : Nat
  milestoneId : Nat
  timestamp : Nat
  score : Int
  duration : Nat
  filesModified : List String
  gitTag : Option String := none
deriving DecidableEq

/-- JavaScript `Math.round` on the exact rational value: round half toward
positive infinity, i.e. `Math.round(x) = ⌊x + 1/2⌋`. -/
def jsRound (q : ℚ) : Int := ⌊q + 1 / 2⌋

/-- `KarmaPhala.calculateScore`:
`durationScore = Math.min(duration / 60, 100)`,
`filesScore = Math.min(filesCount * 10, 100)`,
`Math.round((durationScore + filesScore) / 2)`.
The JS arithmetic is on IEEE doubles; for the integer inputs reaching this
function the exact rational computation rounds identically (the only exact
half-way points occur when `duration` is a multiple of 60, where the double
quotient is exact). -/
def calculateScore (duration filesCount : Nat) : Int :=
  let durationScore : ℚ := min ((duration : ℚ) / 60) 100
  let filesScore : ℚ := min ((filesCount : ℚ) * 10) 100
  jsRound ((durationScore + filesScore) / 2)

/-! ## String helpers shared by the drift detector

The detector works on file-path strings with `toLowerCase`, `includes`,
`split(/\s+/)` and `split(/[/\\]/)`. These are modelled on the character
list underlying the string, which is exact for the ASCII paths and goals
the detector handles. -/

/-- JS `String.prototype.toLowerCase` (ASCII case mapping). -/
def jsToLower (s : String) : String := String.mk (s.data.map Char.toLower)

/-- JS `haystack.includes(needle)`: contiguous substring test. -/
def strContains (s sub : String) : Bool :=
  s.data.tails.any (fun t => sub.data.isPrefixOf t)

/-- Splits a character list at every character satisfying `p`, keeping empty
pieces, like JS `split` on a single-character class. -/
def splitCharList (p : Char → Bool) : List Char → List Char → List (List Char)
  | [], cur => [cur.reverse]
  | c :: cs, cur =>
    if p c then cur.reverse :: splitCharList p cs []
    else splitCharList p cs (c :: cur)

/-- JS `s.split(/[/\\]/)`: split a path at every slash or backslash. -/
def jsSplitPath (s : String) : List String :=
  (splitCharList (fun c => c == '/' || c == '\\') s.data []).map String.mk

/-- JS `s.split(/\s+/)`: split at maximal whitespace runs.  A run of
whitespace produces a single split point; a leading (resp. trailing) run
contributes a leading (resp. trailing) empty piece, and the empty string
yields `[""]`. -/
def jsSplitWhitespaceRuns (s : String) : List String :=
  match s.data with
  | [] => [""]
  | c :: _ =>
    let core := ((splitCharList (fun ch => ch.isWhitespace) s.data []).map
      String.mk).filter (fun t => t ≠ "")
    let core := if c.isWhitespace then "" :: core else core
    if (s.data.getLast?.getD c).isWhitespace then core ++ [""] else core

/-! ## Drift detector (dharma-sankata.ts) -/

/-- Alert reason: file_threshold, goal_mismatch or time_anomaly in the
source. -/
inductive DriftReason
  | file_threshold
  | goal_mismatch
  | time_anomaly
deriving DecidableEq

/-- The `details` field of an alert. -/
structure ISankataDetails where
  filesChanged : Nat
  threshold : Nat
  currentGoal : Option String
  detectedGoal : Option String := none
deriving DecidableEq

/-- The human-readable `suggestion` strings assembled by `checkScope`, one
template literal per check, abstracted to a tagged value carrying the data
interpolated into the message. -/
inductive Suggestion
  | fileThresholdMsg (filesCount threshold : Nat)
  | goalMismatchMsg (currentGoal : String)
  | timeAnomalyMsg
deriving DecidableEq

/-- The `IDharmaSankata` alert record. -/
structure IDharmaSankata where
  detected : Bool
  timestamp : Nat
  reason : DriftReason
  details : ISankataDetails
  suggestion : Option Suggestion := none
deriving DecidableEq

/-- `DharmaSankata.detectGoalMismatch`: lowercase the goal, split it on
whitespace; a file is mismatched when its lowercased path contains none of
the goal keywords; mismatch holds when `mismatchedFiles.length >
files.length * 0.5`, i.e. `2 * mismatchedFiles.length > files.length`. -/
def detectGoalMismatch (currentGoal : Option String) (files : List String) : Bool :=
  match currentGoal with
  | none => false
  | some goal =>
    let goalKeywords := jsSplitWhitespaceRuns (jsToLower goal)
    let mismatchedFiles := files.filter (fun file =>
      let fileName := jsToLower file
      ! goalKeywords.any (fun keyword => strContains fileName keyword))
    files.length < 2 * mismatchedFiles.length

/-- The segment selection in `inferGoalFromFiles`: the second-to-last path
segment, or else the last, or else the empty string; the empty string is
falsy in JS, so an empty second-to-last segment falls through to the last
one. -/
def lastTwoSegment (f : String) : String :=
  let parts := jsSplitPath f
  let a := if 2 ≤ parts.length then parts.getD (parts.length - 2) "" else ""
  if a ≠ "" then a else parts.getD (parts.length - 1) ""

/-- One `pathCounts.set(path, (pathCounts.get(path) || 0) + 1)` step on the
insertion-ordered count map. -/
def bumpCount : List (String × Nat) → String → List (String × Nat)
  | [], k => [(k, 1)]
  | p :: rest, k =>
    if p.1 = k then (p.1, p.2 + 1) :: rest else p :: bumpCount rest k

/-- First-encountered entry with the maximal count. `inferGoalFromFiles`
sorts the entries by descending count with `Array.prototype.sort`, which is
stable, and takes `sorted[0]`; that is exactly the first entry whose count
no later entry strictly exceeds. -/
def maxByCountFirst (l : List (String × Nat)) : Option (String × Nat) :=
  l.foldl (fun acc p =>
    match acc with
    | none => some p
    | some q => if q.2 < p.2 then some p else some q) none

/-- `DharmaSankata.inferGoalFromFiles`: map each file to its second-to-last
path segment, count occurrences in insertion order, and pick the most
frequent segment; the source falls back to the string "unknown" when the
winner is missing or the empty string (which is falsy). -/
def inferGoalFromFiles (files : List String) : String :=
  let commonPaths := files.map lastTwoSegment
  let pathCounts := commonPaths.foldl bumpCount []
  match maxByCountFirst pathCounts with
  | some p => if p.1 = "" then "unknown" else p.1
  | none => "unknown"

/-- One `fileChangeHistory.set(file, now)` step. -/
def historySet (h : List (String × Nat)) (k : String) (v : Nat) : List (String × Nat) :=
  if h.any (fun p => p.1 == k) then
    h.map (fun p => if p.1 = k then (p.1, v) else p)
  else h ++ [(k, v)]

/-- `DharmaSankata.detectTimeAnomaly`: a file is rapid when its recorded
last-change timestamp is truthy (nonzero) and within the last 5000 ms; the
history is then updated for every dirty file, and the anomaly fires when
more than 5 files were rapid.  Returns the flag and the updated history. -/
def detectTimeAnomaly (history : List (String × Nat)) (now : Nat)
    (files : List String) : Bool × List (String × Nat) :=
  let recentChanges := files.filter (fun file =>
    match List.lookup file history with
    | some lastChange => lastChange != 0 && now - lastChange < 5000
    | none => false)
  let newHistory := files.foldl (fun h f => historySet h f now) history
  (decide (5 < recentChanges.length), newHistory)

/-- The `IDharmaSankataConfig` record. -/
structure DharmaSankataConfig where
  scopeCheckInterval : Nat
  fileChangeThreshold : Nat
  enabled : Bool
  currentGoal : Option String := none
deriving DecidableEq

/-- Mutable state of a `DharmaSankata` instance: its config (which holds the
current goal), the retained alert list and the per-file last-change map. -/
structure DharmaSankataState where
  config : DharmaSankataConfig
  alerts : List IDharmaSankata
  fileChangeHistory : List (String × Nat)
deriving DecidableEq

/-- `DharmaSankata.setGoal`. -/
def setGoal (st : DharmaSankataState) (goal : String) : DharmaSankataState :=
  { st with config := { st.config with currentGoal := some goal } }

/-- `DharmaSankata.getAlerts`. -/
def getAlerts (st : DharmaSankataState) : List IDharmaSankata := st.alerts

/-- Result of one `checkScope` call: the returned alert, the updated
detector state, and the events fired on the shared emitter (zero or one
`dharma_alert`, represented below by the alert payload). -/
structure CheckScopeResult where
  sankata : IDharmaSankata
  state : DharmaSankataState
  firedAlerts : List IDharmaSankata
deriving DecidableEq

/-- The alert record assembled by `DharmaSankata.checkScope` before the
side effects: the three checks run in order on a single mutable result
record, starting from a not-detected record with reason `file_threshold`;
file threshold, then goal mismatch (only when a goal is set), then time
anomaly, each check that fires overwriting `detected`, `reason` and
`suggestion` (goal mismatch also records the inferred goal in the
details). -/
def checkScopeSankata (st : DharmaSankataState) (now : Nat)
    (files : List String) : IDharmaSankata :=
  let filesCount := files.length
  let s0 : IDharmaSankata :=
    { detected := false
      timestamp := now
      reason := .file_threshold
      details :=
        { filesChanged := filesCount
          threshold := st.config.fileChangeThreshold
          currentGoal := st.config.currentGoal
          detectedGoal := none }
      suggestion := none }
  let s1 :=
    if st.config.fileChangeThreshold < filesCount then
      { s0 with detected := true, reason := .file_threshold,
                suggestion := some (.fileThresholdMsg filesCount st.config.fileChangeThreshold) }
    else s0
  let s2 :=
    match st.config.currentGoal with
    | some goal =>
      if detectGoalMismatch (some goal) files then
        { s1 with detected := true, reason := .goal_mismatch,
                  details := { s1.details with detectedGoal := some (inferGoalFromFiles files) },
                  suggestion := some (.goalMismatchMsg goal) }
      else s1
    | none => s1
  if (detectTimeAnomaly st.fileChangeHistory now files).1 then
    { s2 with detected := true, reason := .time_anomaly,
              suggestion := some .timeAnomalyMsg }
  else s2

/-- `DharmaSankata.checkScope`, with the dirty-file set supplied by the
external provider passed in as `files`.  Builds the alert record
(`checkScopeSankata`); the file-change history is updated by
`detectTimeAnomaly` on every call.  If the final record is detected it is
appended to the alert history and a `dharma_alert` event is fired;
otherwise it is only returned. -/
def checkScope (st : DharmaSankataState) (now : Nat) (files : List String) :
    CheckScopeResult :=
  let s3 := checkScopeSankata st now files
  let newHistory := (detectTimeAnomaly st.fileChangeHistory now files).2
  if s3.detected then
    { sankata := s3
      state := { st with alerts := st.alerts ++ [s3], fileChangeHistory := newHistory }
      firedAlerts := [s3] }
  else
    { sankata := s3
      state := { st with fileChangeHistory := newHistory }
      firedAlerts := [] }

/-! ## Checkpoint tracker (sutra-checkpoints.ts) -/

/-- The `ISutraCheckpoint` record. -/
structure ISutraCheckpoint where
  id : Nat
  timestamp : Nat
  message : Option String
  filesChanged : List String
  gitCommitHash : Option String := none
deriving DecidableEq

/-- The `ISutraCheckpointConfig` record. -/
structure SutraCheckpointConfig where
  interval : Nat
  autoCommit : Bool
  enabled : Bool
deriving DecidableEq

/-- Mutable state of a `SutraCheckpoints` instance: config, the append-only
checkpoint list, and the id counter. -/
structure SutraCheckpointsState where
  config : SutraCheckpointConfig
  checkpoints : List ISutraCheckpoint
  nextId : Nat
deriving DecidableEq

/-- `SutraCheckpoints.createCheckpoint`: build a checkpoint from the current
dirty-file set, attach the commit hash only when `autoCommit` is on and the
external `git commit` subprocess succeeded (its outcome is the
`commitResult` input; failures are swallowed), append it to the local list
and fire a `checkpoint` event.  Returns the record, the new tracker state
and the fired checkpoint payloads. -/
def createCheckpoint (st : SutraCheckpointsState) (now : Nat)
    (message : Option String) (dirtyFiles : List String)
    (commitResult : Option String) :
    ISutraCheckpoint × SutraCheckpointsState × List ISutraCheckpoint :=
  let cp : ISutraCheckpoint :=
    { id := st.nextId
      timestamp := now
      message
      filesChanged := dirtyFiles
      gitCommitHash := if st.config.autoCommit then commitResult else none }
  (cp, { st with checkpoints := st.checkpoints ++ [cp], nextId := st.nextId + 1 }, [cp])

/-- `SutraCheckpoints.getCheckpoints` (returns a copy of the list). -/
def getCheckpoints (st : SutraCheckpointsState) : List ISutraCheckpoint :=
  st.checkpoints

/-! ## Milestone tracker state and operations (karma-phala.ts) -/

/-- The `IKarmaPhalaConfig` record (`nudgeStrategy` is presentation-only and
not part of the state the tracked operations read). -/
structure KarmaPhalaConfig where
  milestoneThreshold : Nat
  autoTag : Bool
  enabled : Bool
deriving DecidableEq

/-- Mutable state of a `KarmaPhala` instance: the insertion-ordered
`milestones` map (id to record), the outcome list, the active-milestone
slot, its start time and the id counter. -/
structure KarmaPhalaState where
  config : KarmaPhalaConfig
  milestones : List (Nat × IMilestone)
  karmaPhala : List IKarmaPhala
  activeMilestone : Option IMilestone
  milestoneStartTime : Option Nat
  nextId : Nat
deriving DecidableEq

/-- One `Map.set` step on the milestones map: replace in place when the key
exists, append otherwise. -/
def milestonesSet (m : List (Nat × IMilestone)) (k : Nat) (v : IMilestone) :
    List (Nat × IMilestone) :=
  if m.any (fun p => p.1 == k) then
    m.map (fun p => if p.1 = k then (k, v) else p)
  else m ++ [(k, v)]

/-- `KarmaPhala.createMilestone`: always succeeds; stores a fresh milestone
in `active` status, makes it the active one, records the start time, and
fires a `milestone_created` event (which the session coordinator ignores). -/
def createMilestone (st : KarmaPhalaState) (now : Nat) (name : String)
    (targetDuration : Option Nat) : IMilestone × KarmaPhalaState :=
  let m : IMilestone :=
    { id := st.nextId
      name
      createdAt := now
      targetDuration
      status := .active
      completedAt := none }
  (m, { st with
        milestones := milestonesSet st.milestones m.id m
        activeMilestone := some m
        milestoneStartTime := some now
        nextId := st.nextId + 1 })

/-- `KarmaPhala.completeMilestone`: throws when the active slot or the start
time is unset; otherwise computes the duration in whole seconds
(`Math.floor((Date.now() - milestoneStartTime) / 1000)`), the score, marks
the milestone completed, stores the outcome (attaching the external
`git tag` result only when `autoTag` is on; failures are swallowed), clears
the active slot and fires a `milestone` event with the outcome. -/
def completeMilestone (st : KarmaPhalaState) (now : Nat)
    (filesModified : List String) (tagResult : Option String) :
    Except String (IKarmaPhala × KarmaPhalaState) :=
  match st.activeMilestone, st.milestoneStartTime with
  | some m, some start =>
    let duration := (now - start) / 1000
    let score := calculateScore duration filesModified.length
    let m' := { m with status := .completed, completedAt := some now }
    let outcome : IKarmaPhala :=
      { id := st.nextId
        milestoneId := m.id
        timestamp := now
        score
        duration
        filesModified
        gitTag := if st.config.autoTag then tagResult else none }
    .ok (outcome,
      { st with
        milestones := milestonesSet st.milestones m'.id m'
        karmaPhala := st.karmaPhala ++ [outcome]
        activeMilestone := none
        milestoneStartTime := none
        nextId := st.nextId + 1 })
  | _, _ => .error "No active milestone to complete"

/-- `KarmaPhala.abandonMilestone`: no-op when none is active; otherwise
marks the active milestone abandoned, stores it and clears the slot. -/
def abandonMilestone (st : KarmaPhalaState) : KarmaPhalaState :=
  match st.activeMilestone with
  | none => st
  | some m =>
    let m' := { m with status := .abandoned }
    { st with
      milestones := milestonesSet st.milestones m'.id m'
      activeMilestone := none
      milestoneStartTime := none }

/-- `KarmaPhala.getActiveMilestone`. -/
def getActiveMilestone (st : KarmaPhalaState) : Option IMilestone :=
  st.activeMilestone

/-- `KarmaPhala.getMilestones`: `Array.from(this.milestones.values())`. -/
def getMilestones (st : KarmaPhalaState) : List IMilestone :=
  st.milestones.map Prod.snd

/-- Tracker-level milestone calls, carrying their instant and external
inputs. -/
inductive KOp
  | create (now : Nat) (name : String) (targetDuration : Option Nat)
  | complete (now : Nat) (files : List String) (tagResult : Option String)
  | abandon
deriving DecidableEq

/-- One tracker call; a rejected `completeMilestone` surfaces its error to
the caller and leaves the state unchanged. -/
def stepKarma (st : KarmaPhalaState) (op : KOp) : KarmaPhalaState :=
  match op with
  | .create now name t => (createMilestone st now name t).2
  | .complete now files tr =>
    match completeMilestone st now files tr with
    | .ok r => r.2
    | .error _ => st
  | .abandon => abandonMilestone st

/-- A sequence of tracker calls. -/
def runKarma (st : KarmaPhalaState) (ops : List KOp) : KarmaPhalaState :=
  ops.foldl stepKarma st

/-- Fresh milestone-tracker state. -/
def karmaInit (cfg : KarmaPhalaConfig) : KarmaPhalaState :=
  { config := cfg, milestones := [], karmaPhala := []
    activeMilestone := none, milestoneStartTime := none, nextId := 0 }

/-- The active-slot consistency property: whenever the active slot is set
it holds a status-`active` record that is stored in the milestones map. -/
def ActiveSlotInv (st : KarmaPhalaState) : Prop :=
  ∀ m, st.activeMilestone = some m →
    m.status = .active ∧ (m.id, m) ∈ st.milestones

/-! ## Session coordinator (yatra-manager.ts) -/

/-- The `IYatra` session record. -/
structure IYatra where
  id : Nat
  sankalpa : Option String
  startedAt : Nat
  endedAt : Option Nat := none
  checkpoints : List ISutraCheckpoint
  milestones : List IMilestone
  dharmaAlerts : List IDharmaSankata
deriving DecidableEq

/-- The `IYatraManagerConfig` record. -/
structure YatraManagerConfig where
  enabled : Bool
  autoStart : Bool
  persistState : Bool
  sankalpaReminderInterval : Option Nat := none
deriving DecidableEq

/-- Combined state of the coordinator and the three tracker modules it
drives.  `endedLog` is a specification-only trace recording, in order, the
session values returned by each successful `endYatra` call (the source
returns them to the caller rather than storing them). -/
structure SysState where
  config : YatraManagerConfig
  currentYatra : Option IYatra
  sutra : SutraCheckpointsState
  karma : KarmaPhalaState
  dharma : DharmaSankataState
  nextId : Nat
  endedLog : List IYatra
deriving DecidableEq

/-- `YatraManager.startYatra`: throws when a yatra is already active;
otherwise creates a session with empty lists, makes it current, starts the
checkpoint and drift timers, sets the drift goal when an intention is
given, persists, and fires `yatra_start` (which the coordinator own
handler ignores). -/
def startYatra (st : SysState) (now : Nat) (sankalpa : Option String) :
    Except String (IYatra × SysState) :=
  match st.currentYatra with
  | some _ => .error "A yatra is already active"
  | none =>
    let y : IYatra :=
      { id := st.nextId
        sankalpa
        startedAt := now
        endedAt := none
        checkpoints := []
        milestones := []
        dharmaAlerts := [] }
    let dharma :=
      match sankalpa with
      | some s => setGoal st.dharma s
      | none => st.dharma
    .ok (y, { st with currentYatra := some y, dharma, nextId := st.nextId + 1 })

/-- `YatraManager.endYatra`: throws when no yatra is active; otherwise
stamps the end time, stops the trackers, overwrites the session checkpoint,
milestone and alert lists wholesale from the trackers current state, fires
`yatra_end`, clears the active slot and returns the session. -/
def endYatra (st : SysState) (now : Nat) : Except String (IYatra × SysState) :=
  match st.currentYatra with
  | none => .error "No active yatra to end"
  | some y0 =>
    let y : IYatra :=
      { y0 with
        endedAt := some now
        checkpoints := getCheckpoints st.sutra
        milestones := getMilestones st.karma
        dharmaAlerts := getAlerts st.dharma }
    .ok (y, { st with currentYatra := none, endedLog := st.endedLog ++ [y] })

/-- `YatraManager.updateSankalpa`: throws when no yatra is active; otherwise
updates the intention in place and re-points the drift-detector goal. -/
def updateSankalpa (st : SysState) (sankalpa : String) : Except String SysState :=
  match st.currentYatra with
  | none => .error "No active yatra to update"
  | some y =>
    .ok { st with
          currentYatra := some { y with sankalpa := some sankalpa }
          dharma := setGoal st.dharma sankalpa }

/-- `YatraManager.handleCoreEvent` folding of a `checkpoint` event: append
the payload to the active session checkpoint list (no-op when idle). -/
def foldCheckpointEvent (st : SysState) (cp : ISutraCheckpoint) : SysState :=
  match st.currentYatra with
  | none => st
  | some y => { st with currentYatra := some { y with checkpoints := y.checkpoints ++ [cp] } }

/-- `YatraManager.handleCoreEvent` folding of a `dharma_alert` event: append
the payload to the active session alert list (no-op when idle).
`milestone` and `milestone_created` events reach the same handler but its
`switch` does nothing for them. -/
def foldAlertEvent (st : SysState) (a : IDharmaSankata) : SysState :=
  match st.currentYatra with
  | none => st
  | some y => { st with currentYatra := some { y with dharmaAlerts := y.dharmaAlerts ++ [a] } }

/-- A `SutraCheckpoints.createCheckpoint` call observed at system level: the
tracker appends the checkpoint and fires the `checkpoint` event, which the
coordinator folds into the active session. -/
def sysCreateCheckpoint (st : SysState) (now : Nat) (message : Option String)
    (dirtyFiles : List String) (commitResult : Option String) : SysState :=
  let r := createCheckpoint st.sutra now message dirtyFiles commitResult
  r.2.2.foldl foldCheckpointEvent { st with sutra := r.2.1 }

/-- A `DharmaSankata.checkScope` call observed at system level: the detector
updates its state and fires a `dharma_alert` event only when drift was
detected, which the coordinator folds into the active session. -/
def sysCheckScope (st : SysState) (now : Nat) (dirtyFiles : List String) : SysState :=
  let r := checkScope st.dharma now dirtyFiles
  r.firedAlerts.foldl foldAlertEvent { st with dharma := r.state }

/-- A `KarmaPhala.createMilestone` call observed at system level; the
`milestone_created` event it fires is ignored by the coordinator. -/
def sysCreateMilestone (st : SysState) (now : Nat) (name : String)
    (targetDuration : Option Nat) : SysState :=
  { st with karma := (createMilestone st.karma now name targetDuration).2 }

/-- A `KarmaPhala.completeMilestone` call observed at system level; the
`milestone` event it fires reaches the coordinator handler, whose `switch`
intentionally does not fold it (milestones are re-read at end of session).
A rejected call leaves every module unchanged. -/
def sysCompleteMilestone (st : SysState) (now : Nat) (files : List String)
    (tagResult : Option String) : SysState :=
  match completeMilestone st.karma now files tagResult with
  | .ok r => { st with karma := r.2 }
  | .error _ => st

/-- A `KarmaPhala.abandonMilestone` call observed at system level (fires no
event). -/
def sysAbandonMilestone (st : SysState) : SysState :=
  { st with karma := abandonMilestone st.karma }

/-- The calls a client can make against the coordinator and its trackers,
each carrying the instant at which it runs and the external inputs it
observes (dirty files, subprocess results). -/
inductive SysOp
  | start (now : Nat) (sankalpa : Option String)
  | stop (now : Nat)
  | checkpoint (now : Nat) (message : Option String) (dirtyFiles : List String)
      (commitResult : Option String)
  | scope (now : Nat) (dirtyFiles : List String)
  | mkMilestone (now : Nat) (name : String) (targetDuration : Option Nat)
  | doneMilestone (now : Nat) (files : List String) (tagResult : Option String)
  | dropMilestone
  | setSankalpa (sankalpa : String)
deriving DecidableEq

/-- One client call; calls that throw (`startYatra` while active, `endYatra`
or `updateSankalpa` while idle, `completeMilestone` with no active
milestone) surface the error to the caller and leave the state unchanged. -/
def stepSystem (st : SysState) (op : SysOp) : SysState :=
  match op with
  | .start now s =>
    match startYatra st now s with
    | .ok r => r.2
    | .error _ => st
  | .stop now =>
    match endYatra st now with
    | .ok r => r.2
    | .error _ => st
  | .checkpoint now m f c => sysCreateCheckpoint st now m f c
  | .scope now f => sysCheckScope st now f
  | .mkMilestone now n t => sysCreateMilestone st now n t
  | .doneMilestone now f tr => sysCompleteMilestone st now f tr
  | .dropMilestone => sysAbandonMilestone st
  | .setSankalpa s =>
    match updateSankalpa st s with
    | .ok st' => st'
    | .error _ => st

/-- A sequence of client calls. -/
def runSystem (st : SysState) (ops : List SysOp) : SysState :=
  ops.foldl stepSystem st

/-- Fresh system state: no active yatra, all tracker lists empty. -/
def sysInit (mcfg : YatraManagerConfig) (scfg : SutraCheckpointConfig)
    (kcfg : KarmaPhalaConfig) (dcfg : DharmaSankataConfig) : SysState :=
  { config := mcfg
    currentYatra := none
    sutra := { config := scfg, checkpoints := [], nextId := 0 }
    karma :=
      { config := kcfg, milestones := [], karmaPhala := []
        activeMilestone := none, milestoneStartTime := none, nextId := 0 }
    dharma := { config := dcfg, alerts := [], fileChangeHistory := [] }
    nextId := 0
    endedLog := [] }

/-- Number of currently active sessions: the coordinator holds the single
(optional) active session. -/
def activeSessionCount (st : SysState) : Nat :=
  if st.currentYatra.isSome then 1 else 0

/-! ## Knowledge store (src/learning/jnana-capture.ts) -/

/-- The optional `context` attached to a knowledge entry. -/
structure JnanaContext where
  file : Option String := none
  line : Option Nat := none
  timestamp : Option Nat := none
  yatraId : Option Nat := none
deriving DecidableEq

/-- The `IJnana` knowledge entry (category is one of the closed set of
category names, kept as a string). -/
structure IJnana where
  id : String
  category : String
  content : String
  context : JnanaContext := {}
  tags : Option (List String) := none
deriving DecidableEq

/-- One `capturedJnana.set(jnana.id, jnana)` step on the insertion-ordered
store. -/
def jnanaSet (store : List IJnana) (j : IJnana) : List IJnana :=
  if store.any (fun k => k.id == j.id) then
    store.map (fun k => if k.id = j.id then j else k)
  else store ++ [j]

/-- `JnanaCapture.exportToJSON` serializes
`Array.from(this.capturedJnana.values())` with `JSON.stringify`; modelled at
the level of the parsed JSON value, i.e. the entry list in insertion order
(`JSON.parse ∘ JSON.stringify` is the identity on these plain records). -/
def exportToJSON (store : List IJnana) : List IJnana := store

/-- `JnanaCapture.importFromJSON`: parse the array and `set` every entry
into the store by id. -/
def importFromJSON (store : List IJnana) (entries : List IJnana) : List IJnana :=
  entries.foldl jnanaSet store

/-! ## Concrete instantiations used as witnesses -/

/-- A concrete coordinator configuration. -/
def mcfgEx : YatraManagerConfig :=
  { enabled := true, autoStart := false, persistState := false
    sankalpaReminderInterval := none }

/-- A concrete checkpoint-tracker configuration. -/
def scfgEx : SutraCheckpointConfig :=
  { interval := 300, autoCommit := false, enabled := true }

/-- A concrete milestone-tracker configuration. -/
def kcfgEx : KarmaPhalaConfig :=
  { milestoneThreshold := 100, autoTag := false, enabled := true }

/-- A concrete drift-detector configuration (threshold 10, no goal). -/
def dcfgEx : DharmaSankataConfig :=
  { scopeCheckInterval := 300, fileChangeThreshold := 10, enabled := true
    currentGoal := none }

/-- A concrete fresh system state. -/
def sysEx : SysState := sysInit mcfgEx scfgEx kcfgEx dcfgEx

/-- A concrete system state with one active yatra and no tracker records. -/
def sysActiveEx : SysState := runSystem sysEx [SysOp.start 0 none]

/-- A concrete fresh milestone-tracker state. -/
def karmaEx : KarmaPhalaState := karmaInit kcfgEx

/-- A concrete tracker state holding one active milestone started at 1000. -/
def karmaActiveEx : KarmaPhalaState :=
  (createMilestone karmaEx 1000 "feature" none).2

/-- A concrete detector state with goal "alpha" and threshold 1. -/
def dharmaC3Ex : DharmaSankataState :=
  { config :=
      { scopeCheckInterval := 300, fileChangeThreshold := 1, enabled := true
        currentGoal := some "alpha" }
    alerts := []
    fileChangeHistory := [] }

/-- A concrete detector state for C8: goal "user authentication", threshold
10, no history. -/
def dharmaC8Ex : DharmaSankataState :=
  { config :=
      { scopeCheckInterval := 300, fileChangeThreshold := 10, enabled := true
        currentGoal := some "user authentication" }
    alerts := []
    fileChangeHistory := [] }

/-- Five dirty files under /src/payment/. -/
def paymentFilesEx : List String :=
  ["/src/payment/checkout.ts", "/src/payment/invoice.ts", "/src/payment/refund.ts",
   "/src/payment/cart.ts", "/src/payment/tax.ts"]

/-- A concrete two-entry knowledge store. -/
def jnanaStoreEx : List IJnana :=
  [{ id := "jnana-1", category := "insight", content := "prefer small commits" },
   { id := "jnana-2", category := "gotcha", content := "timers leak" }]

/-- The session value produced by ending `sysActiveEx` at instant 5. -/
def yEndEx : IYatra :=
  { id := 0, sankalpa := none, startedAt := 0, endedAt := some 5
    checkpoints := [], milestones := [], dharmaAlerts := [] }

/-- Calls that create a checkpoint. -/
def isCkpt : SysOp → Bool
  | .checkpoint _ _ _ _ => true
  | _ => false

/-- Calls other than `startYatra`/`endYatra`: the tracker and intention
calls that can run while a session is in progress. -/
def midSession : SysOp → Bool
  | .start _ _ => false
  | .stop _ => false
  | _ => true

/-- Every stored milestone-map key is the id of its record (true by
construction: the tracker always calls `set` with the record id as key). -/
def sysKeysAreIds (st : SysState) : Prop :=
  ∀ p ∈ st.karma.milestones, p.1 = p.2.id

end Tridishti

namespace Tridishti

/-- Closed form for `calculateScore` as natural-number division: with
`a = min duration 6000` and `b = min (filesCount * 10) 100`, the score is
`(a + 60 * b + 60) / 120`. -/
theorem calculateScore_eq_natDiv (duration filesCount : Nat) :
    calculateScore duration filesCount =
      ((min duration 6000 + 60 * min (filesCount * 10) 100 + 60) / 120 : Nat) := by
  unfold calculateScore jsRound
  have h60 : (0:ℚ) < 60 := by norm_num
  have hmin1 : min ((duration : ℚ) / 60) 100 = ((min duration 6000 : ℕ) : ℚ) / 60 := by
    have : (100 : ℚ) = (6000 : ℚ) / 60 := by norm_num
    rw [this, min_div_div_right (le_of_lt h60)]
    push_cast
    norm_num
  have hmin2 : min ((filesCount : ℚ) * 10) 100 = ((min (filesCount * 10) 100 : ℕ) : ℚ) := by
    push_cast
    norm_num
  rw [hmin1, hmin2]
  set a : ℕ := min duration 6000
  set b : ℕ := min (filesCount * 10) 100
  show ⌊((a : ℚ) / 60 + (b : ℚ)) / 2 + 1 / 2⌋ = ((a + 60 * b + 60) / 120 : ℕ)
  have key : ((a : ℚ) / 60 + (b : ℚ)) / 2 + 1 / 2 =
      ((a + 60 * b + 60 : ℕ) : ℚ) / ((120 : ℕ) : ℚ) := by
    push_cast
    ring
  rw [key, Rat.floor_natCast_div_natCast]
  exact_mod_cast rfl

/-- C6: for all `duration ≥ 0` and `fileCount ≥ 0` the milestone score lies
in `[0, 100]`, and the score is monotonically non-decreasing in the duration
(for durations up to 6000 seconds) and in the file count (for counts up to
10). -/
theorem calculateScore_bounds_monotone :
    (∀ duration filesCount : Nat,
        0 ≤ calculateScore duration filesCount ∧
        calculateScore duration filesCount ≤ 100) ∧
    (∀ d1 d2 f : Nat, d1 ≤ d2 → d2 ≤ 6000 →
        calculateScore d1 f ≤ calculateScore d2 f) ∧
    (∀ d f1 f2 : Nat, f1 ≤ f2 → f2 ≤ 10 →
        calculateScore d f1 ≤ calculateScore d f2) := by
  refine ⟨fun d f => ?_, fun d1 d2 f h1 h2 => ?_, fun d f1 f2 h1 h2 => ?_⟩ <;>
    simp only [calculateScore_eq_natDiv]
  · constructor
    · exact_mod_cast Nat.zero_le _
    · have hb : (min d 6000 + 60 * min (f * 10) 100 + 60) / 120 ≤ 100 := by omega
      exact_mod_cast hb
  · have hm : (min d1 6000 + 60 * min (f * 10) 100 + 60) / 120 ≤
        (min d2 6000 + 60 * min (f * 10) 100 + 60) / 120 := by omega
    exact_mod_cast hm
  · have hm : (min d 6000 + 60 * min (f1 * 10) 100 + 60) / 120 ≤
        (min d 6000 + 60 * min (f2 * 10) 100 + 60) / 120 := by omega
    exact_mod_cast hm

/-- Witness for C6 at concrete inputs. -/
theorem calculateScore_bounds_monotone_witness :
    (0 ≤ calculateScore 120 3 ∧ calculateScore 120 3 ≤ 100) ∧
    calculateScore 60 2 ≤ calculateScore 120 2 ∧
    calculateScore 60 1 ≤ calculateScore 60 4 :=
  ⟨calculateScore_bounds_monotone.1 120 3,
   calculateScore_bounds_monotone.2.1 60 120 2 (by decide) (by decide),
   calculateScore_bounds_monotone.2.2 60 1 4 (by decide) (by decide)⟩

/-- C2: completing an active milestone yields an outcome whose duration is
`⌊(now − milestoneStartTime) / 1000⌋` whole seconds and whose score is
`round((min(duration / 60, 100) + min(filesModified.length * 10, 100)) / 2)`,
the equal-weighted average of a duration score capped at 100 and a
file-count score capped at 100. -/
theorem completeMilestone_duration_score (st : KarmaPhalaState) (now : Nat)
    (files : List String) (tagResult : Option String) (m : IMilestone) (start : Nat)
    (hm : st.activeMilestone = some m) (hs : st.milestoneStartTime = some start)
    (_hstart : start ≤ now) :
    ∃ outcome st', completeMilestone st now files tagResult = .ok (outcome, st') ∧
      outcome.duration = (now - start) / 1000 ∧
      outcome.score =
        jsRound ((min ((((now - start) / 1000 : ℕ) : ℚ) / 60) 100 +
          min ((files.length : ℚ) * 10) 100) / 2) := by
  unfold completeMilestone
  rw [hm, hs]
  exact ⟨_, _, rfl, rfl, rfl⟩

/-- Witness for C2: completing `karmaActiveEx` at 61000 ms. -/
theorem completeMilestone_duration_score_witness :
    ∃ outcome st', completeMilestone karmaActiveEx 61000 ["a.ts"] none = .ok (outcome, st') ∧
      outcome.duration = (61000 - 1000) / 1000 ∧
      outcome.score =
        jsRound ((min ((((61000 - 1000) / 1000 : ℕ) : ℚ) / 60) 100 +
          min ((["a.ts"].length : ℚ) * 10) 100) / 2) :=
  completeMilestone_duration_score karmaActiveEx 61000 ["a.ts"] none
    { id := 0, name := "feature", createdAt := 1000, targetDuration := none
      status := .active, completedAt := none } 1000 rfl rfl (by decide)

/-- C7: `checkScope` mutates the alert history asymmetrically: a detected
result is appended to the history and published as a `dharma_alert` event,
while an undetected result is returned with the history unchanged and no
event fired. -/
theorem checkScope_alert_retention (st : DharmaSankataState) (now : Nat)
    (files : List String) :
    ((checkScope st now files).state.alerts =
      if (checkScope st now files).sankata.detected then
        st.alerts ++ [(checkScope st now files).sankata]
      else st.alerts) ∧
    ((checkScope st now files).firedAlerts =
      if (checkScope st now files).sankata.detected then
        [(checkScope st now files).sankata]
      else []) := by
  unfold checkScope
  dsimp only
  cases hdet : (checkScopeSankata st now files).detected <;> simp [hdet]

/-- C3: when the dirty files both exceed the file-change threshold and
satisfy the goal-mismatch condition, the returned alert is detected with
reason `goal_mismatch`, not `file_threshold`; and when the time-anomaly
condition also holds, the reason is `time_anomaly`: the later-evaluated
check overwrites the earlier reason and suggestion. -/
theorem checkScope_precedence (st : DharmaSankataState) (now : Nat)
    (files : List String) (goal : String)
    (hgoal : st.config.currentGoal = some goal)
    (hthr : st.config.fileChangeThreshold < files.length)
    (hmis : detectGoalMismatch (some goal) files = true) :
    (checkScope st now files).sankata.detected = true ∧
    ((detectTimeAnomaly st.fileChangeHistory now files).1 = false →
      (checkScope st now files).sankata.reason = .goal_mismatch ∧
      (checkScope st now files).sankata.suggestion = some (.goalMismatchMsg goal)) ∧
    ((detectTimeAnomaly st.fileChangeHistory now files).1 = true →
      (checkScope st now files).sankata.reason = .time_anomaly ∧
      (checkScope st now files).sankata.suggestion = some .timeAnomalyMsg) := by
  have hs : (checkScope st now files).sankata = checkScopeSankata st now files := by
    unfold checkScope
    dsimp only
    split <;> rfl
  rw [hs]
  unfold checkScopeSankata
  rw [hgoal]
  dsimp only
  rw [if_pos hmis]
  cases hta : (detectTimeAnomaly st.fileChangeHistory now files).1 <;> simp [hta, hthr]

/-- Witness for C3: two dirty files exceed threshold 1 and match none of the
goal keywords; with no rapid-change history the reason is `goal_mismatch`. -/
theorem checkScope_precedence_witness :
    (checkScope dharmaC3Ex 1000 ["/x/a.ts", "/x/b.ts"]).sankata.detected = true ∧
    (checkScope dharmaC3Ex 1000 ["/x/a.ts", "/x/b.ts"]).sankata.reason =
      DriftReason.goal_mismatch :=
  ⟨(checkScope_precedence dharmaC3Ex 1000 ["/x/a.ts", "/x/b.ts"] "alpha"
      rfl (by decide) (by decide)).1,
   ((checkScope_precedence dharmaC3Ex 1000 ["/x/a.ts", "/x/b.ts"] "alpha"
      rfl (by decide) (by decide)).2.1 (by decide)).1⟩

/-- C8: with goal "user authentication" and five dirty files under
/src/payment/ (below the file threshold, with no rapid-change history),
`checkScope` detects drift with reason `goal_mismatch` and infers the goal
"payment", the most frequent second-to-last path segment. -/
theorem checkScope_payment_scenario :
    (checkScope dharmaC8Ex 5000 paymentFilesEx).sankata.detected = true ∧
    (checkScope dharmaC8Ex 5000 paymentFilesEx).sankata.reason =
      DriftReason.goal_mismatch ∧
    (checkScope dharmaC8Ex 5000 paymentFilesEx).sankata.details.detectedGoal =
      some "payment" := by decide

/-- C1 counterexample: the claim says that across every sequence of
`startYatra`/`endYatra` calls exactly one session is active at any instant,
but after the concrete sequence start-then-end (and likewise before any
start) zero sessions are active. -/
theorem session_exactly_one_counterexample :
    activeSessionCount (runSystem sysEx [SysOp.start 0 none, SysOp.stop 5]) ≠ 1 := by
  decide

/-- C1 (amended): every precondition violation is surfaced synchronously:
`startYatra` while a yatra is active always throws, `endYatra` and
`updateSankalpa` while idle always throw, `completeMilestone` with no
active milestone always rejects with a message containing "No active
milestone"; and across every call sequence at most one session is active
at any instant. -/
theorem session_precondition_violations :
    (∀ (st : SysState) (now : Nat) (s : Option String),
        st.currentYatra.isSome = true →
        startYatra st now s = .error "A yatra is already active") ∧
    (∀ (st : SysState) (now : Nat), st.currentYatra = none →
        endYatra st now = .error "No active yatra to end") ∧
    (∀ (st : SysState) (s : String), st.currentYatra = none →
        updateSankalpa st s = .error "No active yatra to update") ∧
    (∀ (st : KarmaPhalaState) (now : Nat) (files : List String)
        (tagResult : Option String),
        st.activeMilestone = none →
        ∃ msg, completeMilestone st now files tagResult = .error msg ∧
          strContains msg "No active milestone" = true) ∧
    (∀ (st : SysState) (ops : List SysOp),
        activeSessionCount (runSystem st ops) ≤ 1) := by
  refine ⟨fun st now s h => ?_, fun st now h => ?_, fun st s h => ?_,
    fun st now files tagResult h => ?_, fun st ops => ?_⟩
  · obtain ⟨y, hy⟩ := Option.isSome_iff_exists.mp h
    unfold startYatra
    rw [hy]
  · unfold endYatra
    rw [h]
  · unfold updateSankalpa
    rw [h]
  · refine ⟨"No active milestone to complete", ?_, by decide⟩
    unfold completeMilestone
    rw [h]
  · unfold activeSessionCount
    split <;> omega

/-- Witness for C1, exercising every precondition violation on concrete
states. -/
theorem session_precondition_violations_witness :
    startYatra sysActiveEx 5 none = .error "A yatra is already active" ∧
    endYatra sysEx 5 = .error "No active yatra to end" ∧
    updateSankalpa sysEx "x" = .error "No active yatra to update" ∧
    (∃ msg, completeMilestone karmaEx 5 [] none = .error msg ∧
        strContains msg "No active milestone" = true) ∧
    activeSessionCount (runSystem sysEx [SysOp.start 0 none]) ≤ 1 :=
  ⟨session_precondition_violations.1 sysActiveEx 5 none (by decide),
   session_precondition_violations.2.1 sysEx 5 rfl,
   session_precondition_violations.2.2.1 sysEx "x" rfl,
   session_precondition_violations.2.2.2.1 karmaEx 5 [] none rfl,
   session_precondition_violations.2.2.2.2 sysEx [SysOp.start 0 none]⟩

/-- Inserting an entry whose id is absent appends it. -/
theorem jnanaSet_of_fresh (store : List IJnana) (j : IJnana)
    (h : ∀ k ∈ store, k.id ≠ j.id) : jnanaSet store j = store ++ [j] := by
  unfold jnanaSet
  rw [if_neg]
  simp only [List.any_eq_true, beq_iff_eq, not_exists, not_and]
  exact fun k hk => h k hk

/-- Importing entries with pairwise-distinct ids, all absent from the
store, appends them in order. -/
theorem importFromJSON_fresh (entries : List IJnana) :
    ∀ store : List IJnana, (entries.map (fun j => j.id)).Nodup →
    (∀ e ∈ entries, ∀ k ∈ store, k.id ≠ e.id) →
    importFromJSON store entries = store ++ entries := by
  induction entries with
  | nil => intro store _ _; simp [importFromJSON]
  | cons e rest ih =>
    intro store hnd hfresh
    have hstep : jnanaSet store e = store ++ [e] :=
      jnanaSet_of_fresh store e (fun k hk => hfresh e (List.mem_cons_self e rest) k hk)
    have hnd' : (rest.map (fun j => j.id)).Nodup := by
      simpa using hnd.of_cons
    have hfresh' : ∀ e' ∈ rest, ∀ k ∈ store ++ [e], k.id ≠ e'.id := by
      intro e' he' k hk
      rcases List.mem_append.mp hk with hk | hk
      · exact hfresh e' (List.mem_cons_of_mem e he') k hk
      · rcases List.mem_singleton.mp hk with rfl
        intro hEq
        have hnd2 := hnd
        simp only [List.map_cons, List.nodup_cons, List.mem_map, not_exists,
          not_and] at hnd2
        exact hnd2.1 e' he' hEq.symm
    calc importFromJSON store (e :: rest)
        = importFromJSON (jnanaSet store e) rest := rfl
      _ = importFromJSON (store ++ [e]) rest := by rw [hstep]
      _ = (store ++ [e]) ++ rest := ih (store ++ [e]) hnd' hfresh'
      _ = store ++ (e :: rest) := by simp

/-- Re-inserting an entry already present in a store with distinct ids
leaves the store unchanged. -/
theorem jnanaSet_of_mem (store : List IJnana) (j : IJnana)
    (hnd : (store.map (fun k => k.id)).Nodup) (hj : j ∈ store) :
    jnanaSet store j = store := by
  unfold jnanaSet
  rw [if_pos (List.any_eq_true.mpr ⟨j, hj, by simp⟩)]
  have hinj := List.inj_on_of_nodup_map hnd
  conv_rhs => rw [← List.map_id store]
  refine List.map_congr_left (fun k hk => ?_)
  by_cases hkj : k.id = j.id
  · rw [if_pos hkj]
    exact (hinj hj hk hkj.symm)
  · rw [if_neg hkj]
    rfl

/-- C9: exporting the knowledge store and importing the result, whether
into an empty store or back into the same store, reproduces exactly the
same entry list (ids and contents included). -/
theorem jnana_export_import_roundtrip (store : List IJnana)
    (hnd : (store.map (fun j => j.id)).Nodup) :
    importFromJSON [] (exportToJSON store) = store ∧
    importFromJSON store (exportToJSON store) = store := by
  constructor
  · have h := importFromJSON_fresh store [] hnd (by intro e _ k hk; cases hk)
    simpa [exportToJSON] using h
  · show importFromJSON store store = store
    have key : ∀ entries : List IJnana, (∀ e ∈ entries, e ∈ store) →
        importFromJSON store entries = store := by
      intro entries
      induction entries with
      | nil => intro _; rfl
      | cons e rest ih =>
        intro hmem
        calc importFromJSON store (e :: rest)
            = importFromJSON (jnanaSet store e) rest := rfl
          _ = importFromJSON store rest := by
              rw [jnanaSet_of_mem store e hnd (hmem e (List.mem_cons_self e rest))]
          _ = store := ih (fun e' he' => hmem e' (List.mem_cons_of_mem e he'))
    exact key store (fun e he => he)

/-- Witness for C9 on the concrete two-entry store. -/
theorem jnana_export_import_roundtrip_witness :
    importFromJSON [] (exportToJSON jnanaStoreEx) = jnanaStoreEx ∧
    importFromJSON jnanaStoreEx (exportToJSON jnanaStoreEx) = jnanaStoreEx :=
  jnana_export_import_roundtrip jnanaStoreEx (by decide)

/-- Setting a key on the milestones map stores the bound value. -/
theorem mem_milestonesSet (l : List (Nat × IMilestone)) (k : Nat) (v : IMilestone) :
    (k, v) ∈ milestonesSet l k v := by
  unfold milestonesSet
  split
  · rename_i h
    obtain ⟨p, hp, hpk⟩ := List.any_eq_true.mp h
    have hpk' : p.1 = k := by simpa using hpk
    exact List.mem_map.mpr ⟨p, hp, by rw [if_pos hpk']⟩
  · exact List.mem_append.mpr (Or.inr (List.mem_singleton.mpr rfl))

/-- A successful `completeMilestone` clears the active slot and the start
time. -/
theorem completeMilestone_ok_clears (st : KarmaPhalaState) (now : Nat)
    (files : List String) (tr : Option String) (r : IKarmaPhala × KarmaPhalaState)
    (h : completeMilestone st now files tr = .ok r) :
    r.2.activeMilestone = none ∧ r.2.milestoneStartTime = none := by
  unfold completeMilestone at h
  cases hA : st.activeMilestone <;> rw [hA] at h
  · simp at h
  · cases hS : st.milestoneStartTime <;> rw [hS] at h
    · simp at h
    · simp only [Except.ok.injEq] at h
      rw [← h]
      exact ⟨rfl, rfl⟩

/-- Every tracker call preserves the active-slot consistency property. -/
theorem stepKarma_activeSlotInv (st : KarmaPhalaState) (op : KOp)
    (h : ActiveSlotInv st) : ActiveSlotInv (stepKarma st op) := by
  cases op with
  | create now name t =>
    intro m hm
    simp only [stepKarma, createMilestone, Option.some.injEq] at hm
    subst hm
    exact ⟨rfl, mem_milestonesSet _ _ _⟩
  | complete now files tr =>
    intro m hm
    simp only [stepKarma] at hm ⊢
    cases hc : completeMilestone st now files tr with
    | ok r =>
      rw [hc] at hm
      dsimp only at hm
      rw [(completeMilestone_ok_clears st now files tr r hc).1] at hm
      cases hm
    | error e =>
      rw [hc] at hm
      dsimp only at hm
      exact h m hm
  | abandon =>
    intro m hm
    simp only [stepKarma, abandonMilestone] at hm ⊢
    cases hA : st.activeMilestone <;> rw [hA] at hm <;> dsimp only at hm ⊢
    · exact h m hm
    · cases hm

/-- A sequence of tracker calls preserves the active-slot consistency
property. -/
theorem runKarma_activeSlotInv (ops : List KOp) :
    ∀ st : KarmaPhalaState, ActiveSlotInv st → ActiveSlotInv (runKarma st ops) := by
  induction ops with
  | nil => intro st h; exact h
  | cons op rest ih => intro st h; exact ih _ (stepKarma_activeSlotInv st op h)

/-- C4 counterexample: after two consecutive `createMilestone` calls the
tracker storage returned by `getMilestones` holds two records in `active`
status, refuting "at most one of the milestone records held by the tracker
has status active". -/
theorem milestone_two_active_counterexample :
    ((getMilestones (runKarma (karmaInit kcfgEx)
        [KOp.create 0 "first" none, KOp.create 1 "second" none])).countP
      (fun m => m.status == MilestoneStatus.active)) = 2 := by decide

/-- C4 (amended): after any sequence of `createMilestone`,
`completeMilestone` and `abandonMilestone` calls, the tracker designates at
most one milestone as active, namely the optional active slot returned by
`getActiveMilestone`, and whenever that slot is set it holds a record in
`active` status stored in the milestones map; the records held in storage,
however, can include more than one with status `active`, because
`createMilestone` while one is active leaves the status of the prior
record untouched. -/
theorem milestone_active_slot_invariant (cfg : KarmaPhalaConfig) (ops : List KOp)
    (m : IMilestone)
    (hm : getActiveMilestone (runKarma (karmaInit cfg) ops) = some m) :
    m.status = .active ∧ (m.id, m) ∈ (runKarma (karmaInit cfg) ops).milestones := by
  have hinit : ActiveSlotInv (karmaInit cfg) := by
    intro m hm
    simp [karmaInit] at hm
  exact runKarma_activeSlotInv ops (karmaInit cfg) hinit m hm

/-- Witness for C4 on the one-create call sequence. -/
theorem milestone_active_slot_invariant_witness :
    ({ id := 0, name := "first", createdAt := 0, targetDuration := none
       status := MilestoneStatus.active, completedAt := none } : IMilestone).status =
      MilestoneStatus.active ∧
    ((0 : Nat),
      ({ id := 0, name := "first", createdAt := 0, targetDuration := none
         status := MilestoneStatus.active, completedAt := none } : IMilestone)) ∈
      (runKarma (karmaInit kcfgEx) [KOp.create 0 "first" none]).milestones :=
  milestone_active_slot_invariant kcfgEx [KOp.create 0 "first" none] _ rfl

/-- C5: `endYatra` replaces the session checkpoint, milestone and alert
lists wholesale with the trackers current state, discarding the
incrementally-folded lists; in particular, for a run where a session is
started and exactly two checkpoints are created while it is active, the
session returned by `endYatra` has a checkpoint list of length exactly 2. -/
theorem endYatra_overwrites_tracker_state :
    (∀ (st : SysState) (now : Nat) (y : IYatra) (st' : SysState),
        endYatra st now = .ok (y, st') →
        y.checkpoints = getCheckpoints st.sutra ∧
        y.milestones = getMilestones st.karma ∧
        y.dharmaAlerts = getAlerts st.dharma) ∧
    (∀ (mcfg : YatraManagerConfig) (scfg : SutraCheckpointConfig)
        (kcfg : KarmaPhalaConfig) (dcfg : DharmaSankataConfig)
        (t0 t1 t2 t3 : Nat) (s : Option String) (m1 m2 : Option String)
        (f1 f2 : List String) (c1 c2 : Option String),
        (runSystem (sysInit mcfg scfg kcfg dcfg)
            [SysOp.start t0 s, SysOp.checkpoint t1 m1 f1 c1,
             SysOp.checkpoint t2 m2 f2 c2, SysOp.stop t3]).endedLog.map
          (fun y => y.checkpoints.length) = [2]) := by
  constructor
  · intro st now y st' h
    unfold endYatra at h
    cases hc : st.currentYatra <;> rw [hc] at h
    · simp at h
    · simp only [Except.ok.injEq, Prod.mk.injEq] at h
      obtain ⟨hy, -⟩ := h
      rw [← hy]
      exact ⟨rfl, rfl, rfl⟩
  · intro mcfg scfg kcfg dcfg t0 t1 t2 t3 s m1 m2 f1 f2 c1 c2
    cases s <;>
      simp [runSystem, stepSystem, sysInit, startYatra, setGoal,
        sysCreateCheckpoint, createCheckpoint, foldCheckpointEvent, endYatra,
        getCheckpoints, getMilestones, getAlerts]

/-- Witness for C5: ending the concrete one-session state pulls the (empty)
tracker lists. -/
theorem endYatra_overwrites_tracker_state_witness :
    yEndEx.checkpoints = getCheckpoints sysActiveEx.sutra ∧
    yEndEx.milestones = getMilestones sysActiveEx.karma ∧
    yEndEx.dharmaAlerts = getAlerts sysActiveEx.dharma :=
  endYatra_overwrites_tracker_state.1 sysActiveEx 5 yEndEx
    { sysActiveEx with currentYatra := none, endedLog := [yEndEx] } rfl

/-- Folding one `checkpoint` event only touches the active session value. -/
theorem foldCheckpointEvent_fields (st : SysState) (cp : ISutraCheckpoint) :
    (foldCheckpointEvent st cp).sutra = st.sutra ∧
    (foldCheckpointEvent st cp).karma = st.karma ∧
    (foldCheckpointEvent st cp).dharma = st.dharma ∧
    (foldCheckpointEvent st cp).endedLog = st.endedLog ∧
    (foldCheckpointEvent st cp).currentYatra.isSome = st.currentYatra.isSome := by
  unfold foldCheckpointEvent
  cases hc : st.currentYatra with
  | none => exact ⟨rfl, rfl, rfl, rfl, by simp [hc]⟩
  | some y => exact ⟨rfl, rfl, rfl, rfl, rfl⟩

/-- Folding any list of `checkpoint` events only touches the active session
value. -/
theorem foldCheckpointEvents_fields (cps : List ISutraCheckpoint) :
    ∀ st : SysState,
    (cps.foldl foldCheckpointEvent st).sutra = st.sutra ∧
    (cps.foldl foldCheckpointEvent st).karma = st.karma ∧
    (cps.foldl foldCheckpointEvent st).dharma = st.dharma ∧
    (cps.foldl foldCheckpointEvent st).endedLog = st.endedLog ∧
    (cps.foldl foldCheckpointEvent st).currentYatra.isSome = st.currentYatra.isSome := by
  induction cps with
  | nil => intro st; exact ⟨rfl, rfl, rfl, rfl, rfl⟩
  | cons cp rest ih =>
    intro st
    obtain ⟨a1, a2, a3, a4, a5⟩ := foldCheckpointEvent_fields st cp
    obtain ⟨b1, b2, b3, b4, b5⟩ := ih (foldCheckpointEvent st cp)
    exact ⟨b1.trans a1, b2.trans a2, b3.trans a3, b4.trans a4, b5.trans a5⟩

/-- Folding one `dharma_alert` event only touches the active session
value. -/
theorem foldAlertEvent_fields (st : SysState) (a : IDharmaSankata) :
    (foldAlertEvent st a).sutra = st.sutra ∧
    (foldAlertEvent st a).karma = st.karma ∧
    (foldAlertEvent st a).dharma = st.dharma ∧
    (foldAlertEvent st a).endedLog = st.endedLog ∧
    (foldAlertEvent st a).currentYatra.isSome = st.currentYatra.isSome := by
  unfold foldAlertEvent
  cases hc : st.currentYatra with
  | none => exact ⟨rfl, rfl, rfl, rfl, by simp [hc]⟩
  | some y => exact ⟨rfl, rfl, rfl, rfl, rfl⟩

/-- Folding any list of `dharma_alert` events only touches the active
session value. -/
theorem foldAlertEvents_fields (as : List IDharmaSankata) :
    ∀ st : SysState,
    (as.foldl foldAlertEvent st).sutra = st.sutra ∧
    (as.foldl foldAlertEvent st).karma = st.karma ∧
    (as.foldl foldAlertEvent st).dharma = st.dharma ∧
    (as.foldl foldAlertEvent st).endedLog = st.endedLog ∧
    (as.foldl foldAlertEvent st).currentYatra.isSome = st.currentYatra.isSome := by
  induction as with
  | nil => intro st; exact ⟨rfl, rfl, rfl, rfl, rfl⟩
  | cons a rest ih =>
    intro st
    obtain ⟨a1, a2, a3, a4, a5⟩ := foldAlertEvent_fields st a
    obtain ⟨b1, b2, b3, b4, b5⟩ := ih (foldAlertEvent st a)
    exact ⟨b1.trans a1, b2.trans a2, b3.trans a3, b4.trans a4, b5.trans a5⟩

/-- `checkScope` only ever appends to the alert history. -/
theorem checkScope_alerts_extend (st : DharmaSankataState) (now : Nat)
    (files : List String) :
    ∃ new, (checkScope st now files).state.alerts = st.alerts ++ new := by
  unfold checkScope
  dsimp only
  split
  · exact ⟨_, rfl⟩
  · exact ⟨[], (List.append_nil _).symm⟩

/-- `milestonesSet` preserves every existing key. -/
theorem mem_keys_milestonesSet (l : List (Nat × IMilestone)) (k : Nat)
    (v : IMilestone) :
    ∀ k' ∈ l.map Prod.fst, k' ∈ (milestonesSet l k v).map Prod.fst := by
  intro k' hk'
  unfold milestonesSet
  split
  · rw [List.map_map]
    obtain ⟨p, hp, rfl⟩ := List.mem_map.mp hk'
    refine List.mem_map.mpr ⟨p, hp, ?_⟩
    by_cases h : p.1 = k
    · simp [h]
    · simp [h]
  · rw [List.map_append]
    exact List.mem_append.mpr (Or.inl hk')

/-- A successful `completeMilestone` preserves every stored milestone
key. -/
theorem completeMilestone_ok_keys (st : KarmaPhalaState) (now : Nat)
    (files : List String) (tr : Option String) (r : IKarmaPhala × KarmaPhalaState)
    (h : completeMilestone st now files tr = .ok r) :
    ∀ k ∈ st.milestones.map Prod.fst, k ∈ r.2.milestones.map Prod.fst := by
  unfold completeMilestone at h
  cases hA : st.activeMilestone <;> rw [hA] at h
  · simp at h
  · cases hS : st.milestoneStartTime <;> rw [hS] at h
    · simp at h
    · simp only [Except.ok.injEq] at h
      rw [← h]
      exact mem_keys_milestonesSet _ _ _

/-- `abandonMilestone` preserves every stored milestone key. -/
theorem abandonMilestone_keys (st : KarmaPhalaState) :
    ∀ k ∈ st.milestones.map Prod.fst,
      k ∈ (abandonMilestone st).milestones.map Prod.fst := by
  unfold abandonMilestone
  cases st.activeMilestone
  · exact fun k hk => hk
  · exact mem_keys_milestonesSet _ _ _

/-- Any one mid-session call (checkpoint, scope check, milestone calls,
intention update) adds exactly one checkpoint when it is a checkpoint call
and none otherwise, keeps the session-active flag and the ended-session
trace, only appends to the drift-alert history, and preserves every stored
milestone key. -/
theorem stepSystem_mid_fields (st : SysState) (op : SysOp)
    (h : midSession op = true) :
    (stepSystem st op).sutra.checkpoints.length
        = st.sutra.checkpoints.length + (if isCkpt op then 1 else 0) ∧
    (stepSystem st op).currentYatra.isSome = st.currentYatra.isSome ∧
    (stepSystem st op).endedLog = st.endedLog ∧
    (∃ new, (stepSystem st op).dharma.alerts = st.dharma.alerts ++ new) ∧
    (∀ k ∈ st.karma.milestones.map Prod.fst,
        k ∈ (stepSystem st op).karma.milestones.map Prod.fst) := by
  cases op with
  | start now s => simp [midSession] at h
  | stop now => simp [midSession] at h
  | checkpoint now m f c =>
    have hstep : stepSystem st (.checkpoint now m f c) =
        List.foldl foldCheckpointEvent
          { st with sutra := (createCheckpoint st.sutra now m f c).2.1 }
          (createCheckpoint st.sutra now m f c).2.2 := rfl
    rw [hstep]
    obtain ⟨e1, e2, e3, e4, e5⟩ :=
      foldCheckpointEvents_fields (createCheckpoint st.sutra now m f c).2.2
        { st with sutra := (createCheckpoint st.sutra now m f c).2.1 }
    refine ⟨?_, e5, e4, ⟨[], ?_⟩, fun k hk => ?_⟩
    · rw [e1]
      simp [createCheckpoint, isCkpt]
    · rw [e3]
      simp
    · rw [e2]
      exact hk
  | scope now f =>
    have hstep : stepSystem st (.scope now f) =
        List.foldl foldAlertEvent
          { st with dharma := (checkScope st.dharma now f).state }
          (checkScope st.dharma now f).firedAlerts := rfl
    rw [hstep]
    obtain ⟨e1, e2, e3, e4, e5⟩ :=
      foldAlertEvents_fields (checkScope st.dharma now f).firedAlerts
        { st with dharma := (checkScope st.dharma now f).state }
    obtain ⟨new, hnew⟩ := checkScope_alerts_extend st.dharma now f
    refine ⟨?_, e5, e4, ⟨new, ?_⟩, fun k hk => ?_⟩
    · rw [e1]
      simp [isCkpt]
    · rw [e3]
      exact hnew
    · rw [e2]
      exact hk
  | mkMilestone now n t =>
    refine ⟨by simp [stepSystem, sysCreateMilestone, createMilestone, isCkpt],
      rfl, rfl, ⟨[], by simp [stepSystem, sysCreateMilestone]⟩, fun k hk => ?_⟩
    exact mem_keys_milestonesSet _ _ _ k hk
  | doneMilestone now f tr =>
    cases hc : completeMilestone st.karma now f tr with
    | ok r =>
      have hstep : stepSystem st (.doneMilestone now f tr) = { st with karma := r.2 } := by
        simp [stepSystem, sysCompleteMilestone, hc]
      rw [hstep]
      refine ⟨by simp [isCkpt], rfl, rfl, ⟨[], by simp⟩, fun k hk => ?_⟩
      exact completeMilestone_ok_keys st.karma now f tr r hc k hk
    | error e =>
      have hstep : stepSystem st (.doneMilestone now f tr) = st := by
        simp [stepSystem, sysCompleteMilestone, hc]
      rw [hstep]
      exact ⟨by simp [isCkpt], rfl, rfl, ⟨[], by simp⟩, fun k hk => hk⟩
  | dropMilestone =>
    refine ⟨by simp [stepSystem, sysAbandonMilestone, isCkpt], rfl, rfl,
      ⟨[], by simp [stepSystem, sysAbandonMilestone]⟩, fun k hk => ?_⟩
    exact abandonMilestone_keys st.karma k hk
  | setSankalpa s =>
    cases hc : st.currentYatra with
    | none =>
      have hstep : stepSystem st (.setSankalpa s) = st := by
        simp [stepSystem, updateSankalpa, hc]
      rw [hstep]
      exact ⟨by simp [isCkpt], by rw [hc], rfl, ⟨[], by simp⟩, fun k hk => hk⟩
    | some y =>
      have hstep : stepSystem st (.setSankalpa s) =
          { st with
            currentYatra := some { y with sankalpa := some s }
            dharma := setGoal st.dharma s } := by
        simp [stepSystem, updateSankalpa, hc]
      rw [hstep]
      exact ⟨by simp [isCkpt], rfl, rfl, ⟨[], by simp [setGoal]⟩, fun k hk => hk⟩

/-- Unfolding one call of a run. -/
theorem runSystem_cons (st : SysState) (op : SysOp) (ops : List SysOp) :
    runSystem st (op :: ops) = runSystem (stepSystem st op) ops := rfl

/-- Splitting a run. -/
theorem runSystem_append (st : SysState) (a b : List SysOp) :
    runSystem st (a ++ b) = runSystem (runSystem st a) b := by
  simp [runSystem, List.foldl_append]

/-- A run of mid-session calls adds one checkpoint per checkpoint call,
keeps the session-active flag and the ended-session trace, only appends to
the drift-alert history, and preserves every stored milestone key. -/
theorem runSystem_mid_fields (ops : List SysOp)
    (h : ∀ op ∈ ops, midSession op = true) :
    ∀ st : SysState,
    (runSystem st ops).sutra.checkpoints.length
        = st.sutra.checkpoints.length + ops.countP isCkpt ∧
    (runSystem st ops).currentYatra.isSome = st.currentYatra.isSome ∧
    (runSystem st ops).endedLog = st.endedLog ∧
    (∃ new, (runSystem st ops).dharma.alerts = st.dharma.alerts ++ new) ∧
    (∀ k ∈ st.karma.milestones.map Prod.fst,
        k ∈ (runSystem st ops).karma.milestones.map Prod.fst) := by
  induction ops with
  | nil =>
    intro st
    exact ⟨by simp [runSystem], rfl, rfl, ⟨[], by simp [runSystem]⟩, fun k hk => hk⟩
  | cons op rest ih =>
    intro st
    obtain ⟨a1, a2, a3, ⟨n1, a4⟩, a5⟩ :=
      stepSystem_mid_fields st op (h op (List.mem_cons_self op rest))
    obtain ⟨b1, b2, b3, ⟨n2, b4⟩, b5⟩ :=
      ih (fun o ho => h o (List.mem_cons_of_mem op ho)) (stepSystem st op)
    rw [runSystem_cons]
    refine ⟨?_, b2.trans a2, b3.trans a3, ⟨n1 ++ n2, ?_⟩,
      fun k hk => b5 k (a5 k hk)⟩
    · rw [b1, a1, List.countP_cons]
      generalize (if isCkpt op = true then 1 else 0) = c
      omega
    · rw [b4, a4, List.append_assoc]

/-- `milestonesSet` keyed by a record id preserves the key-is-id
property. -/
theorem milestonesSet_keysAreIds (l : List (Nat × IMilestone)) (v : IMilestone)
    (hl : ∀ p ∈ l, p.1 = p.2.id) :
    ∀ p ∈ milestonesSet l v.id v, p.1 = p.2.id := by
  intro p hp
  unfold milestonesSet at hp
  split at hp
  · obtain ⟨q, hq, rfl⟩ := List.mem_map.mp hp
    by_cases h : q.1 = v.id
    · simp [h]
    · simp only [if_neg h]
      exact hl q hq
  · rcases List.mem_append.mp hp with h | h
    · exact hl p h
    · rcases List.mem_singleton.mp h with rfl
      rfl

/-- A successful `completeMilestone` preserves the key-is-id property. -/
theorem completeMilestone_keysAreIds (st : KarmaPhalaState) (now : Nat)
    (files : List String) (tr : Option String) (r : IKarmaPhala × KarmaPhalaState)
    (h : completeMilestone st now files tr = .ok r)
    (hk : ∀ p ∈ st.milestones, p.1 = p.2.id) :
    ∀ p ∈ r.2.milestones, p.1 = p.2.id := by
  unfold completeMilestone at h
  cases hA : st.activeMilestone with
  | none =>
    rw [hA] at h
    simp at h
  | some m =>
    rw [hA] at h
    cases hS : st.milestoneStartTime with
    | none =>
      rw [hS] at h
      simp at h
    | some start =>
      rw [hS] at h
      simp only [Except.ok.injEq] at h
      rw [← h]
      dsimp only
      exact milestonesSet_keysAreIds st.milestones
        { m with status := .completed, completedAt := some now } hk

/-- `abandonMilestone` preserves the key-is-id property. -/
theorem abandonMilestone_keysAreIds (st : KarmaPhalaState)
    (hk : ∀ p ∈ st.milestones, p.1 = p.2.id) :
    ∀ p ∈ (abandonMilestone st).milestones, p.1 = p.2.id := by
  unfold abandonMilestone
  cases st.activeMilestone
  · exact hk
  · exact milestonesSet_keysAreIds _ _ hk

/-- Every call preserves the key-is-id property of the milestone store. -/
theorem stepSystem_keysAreIds (st : SysState) (op : SysOp)
    (h : sysKeysAreIds st) : sysKeysAreIds (stepSystem st op) := by
  cases op with
  | start now s =>
    unfold sysKeysAreIds
    cases hc : st.currentYatra with
    | none =>
      have hkeq : (stepSystem st (.start now s)).karma = st.karma := by
        cases s <;> simp [stepSystem, startYatra, hc, setGoal]
      rw [hkeq]
      exact h
    | some y =>
      have hkeq : stepSystem st (.start now s) = st := by
        simp [stepSystem, startYatra, hc]
      rw [hkeq]
      exact h
  | stop now =>
    unfold sysKeysAreIds
    cases hc : st.currentYatra with
    | none =>
      have hkeq : stepSystem st (.stop now) = st := by
        simp [stepSystem, endYatra, hc]
      rw [hkeq]
      exact h
    | some y =>
      have hkeq : (stepSystem st (.stop now)).karma = st.karma := by
        simp [stepSystem, endYatra, hc]
      rw [hkeq]
      exact h
  | checkpoint now m f c =>
    unfold sysKeysAreIds
    have hkeq : (stepSystem st (.checkpoint now m f c)).karma = st.karma :=
      (foldCheckpointEvents_fields (createCheckpoint st.sutra now m f c).2.2
        { st with sutra := (createCheckpoint st.sutra now m f c).2.1 }).2.1
    rw [hkeq]
    exact h
  | scope now f =>
    unfold sysKeysAreIds
    have hkeq : (stepSystem st (.scope now f)).karma = st.karma :=
      (foldAlertEvents_fields (checkScope st.dharma now f).firedAlerts
        { st with dharma := (checkScope st.dharma now f).state }).2.1
    rw [hkeq]
    exact h
  | mkMilestone now n t =>
    exact fun p hp => milestonesSet_keysAreIds st.karma.milestones _ h p hp
  | doneMilestone now f tr =>
    unfold sysKeysAreIds
    cases hc : completeMilestone st.karma now f tr with
    | ok r =>
      have hkeq : (stepSystem st (.doneMilestone now f tr)).karma = r.2 := by
        simp [stepSystem, sysCompleteMilestone, hc]
      rw [hkeq]
      exact completeMilestone_keysAreIds st.karma now f tr r hc h
    | error e =>
      have hkeq : stepSystem st (.doneMilestone now f tr) = st := by
        simp [stepSystem, sysCompleteMilestone, hc]
      rw [hkeq]
      exact h
  | dropMilestone =>
    exact fun p hp => abandonMilestone_keysAreIds st.karma h p hp
  | setSankalpa s =>
    unfold sysKeysAreIds
    cases hc : st.currentYatra with
    | none =>
      have hkeq : stepSystem st (.setSankalpa s) = st := by
        simp [stepSystem, updateSankalpa, hc]
      rw [hkeq]
      exact h
    | some y =>
      have hkeq : (stepSystem st (.setSankalpa s)).karma = st.karma := by
        simp [stepSystem, updateSankalpa, hc]
      rw [hkeq]
      exact h

/-- Any run preserves the key-is-id property of the milestone store. -/
theorem runSystem_keysAreIds (ops : List SysOp) :
    ∀ st : SysState, sysKeysAreIds st → sysKeysAreIds (runSystem st ops) := by
  induction ops with
  | nil => exact fun st h => h
  | cons op rest ih =>
    exact fun st h => ih (stepSystem st op) (stepSystem_keysAreIds st op h)

/-- With every key equal to its record id, the id list of the returned
milestone values is the key list. -/
theorem getMilestones_ids (st : KarmaPhalaState)
    (hk : ∀ p ∈ st.milestones, p.1 = p.2.id) :
    (getMilestones st).map (fun m => m.id) = st.milestones.map Prod.fst := by
  unfold getMilestones
  rw [List.map_map]
  exact List.map_congr_left (fun p hp => (hk p hp).symm)

/-- A `startYatra` call from an idle state leaves the trackers (and in
particular the alert history) and the ended-session trace unchanged and
activates a session. -/
theorem stepSystem_start_fields (st : SysState) (hc : st.currentYatra = none)
    (now : Nat) (s : Option String) :
    (stepSystem st (.start now s)).sutra = st.sutra ∧
    (stepSystem st (.start now s)).karma = st.karma ∧
    (stepSystem st (.start now s)).dharma.alerts = st.dharma.alerts ∧
    (stepSystem st (.start now s)).endedLog = st.endedLog ∧
    (stepSystem st (.start now s)).currentYatra.isSome = true := by
  cases s <;> simp [stepSystem, startYatra, hc, setGoal]

/-- An `endYatra` call from an active state stamps the end time, pulls the
tracker lists wholesale into the session, appends it to the ended-session
trace and clears the active slot. -/
theorem stepSystem_stop_eq (st : SysState) (y0 : IYatra)
    (hc : st.currentYatra = some y0) (now : Nat) :
    stepSystem st (.stop now) =
      { st with
        currentYatra := none
        endedLog := st.endedLog ++
          [{ y0 with
             endedAt := some now
             checkpoints := getCheckpoints st.sutra
             milestones := getMilestones st.karma
             dharmaAlerts := getAlerts st.dharma }] } := by
  simp [stepSystem, endYatra, hc]

/-- The empty run. -/
theorem runSystem_nil (st : SysState) : runSystem st [] = st := rfl

/-- C10: `startYatra` does not clear the tracker lists, so checkpoint,
milestone and alert records accumulate across sessions: in every run with
two consecutive yatras, with `n` checkpoint calls during the first session
and `m` during the second, the session returned by the second `endYatra`
has a checkpoint list of length `n + m`, its alert list contains every
alert of the first session, and its milestone list contains every
milestone id of the first session. -/
theorem checkpoints_accumulate_across_sessions
    (mcfg : YatraManagerConfig) (scfg : SutraCheckpointConfig)
    (kcfg : KarmaPhalaConfig) (dcfg : DharmaSankataConfig)
    (ops1 ops2 : List SysOp) (t0 t1 t2 t3 : Nat) (s1 s2 : Option String)
    (h1 : ∀ op ∈ ops1, midSession op = true)
    (h2 : ∀ op ∈ ops2, midSession op = true) :
    ∃ y1 y2,
      (runSystem (sysInit mcfg scfg kcfg dcfg)
          (SysOp.start t0 s1 :: ops1 ++ SysOp.stop t1 :: SysOp.start t2 s2 ::
            ops2 ++ [SysOp.stop t3])).endedLog = [y1, y2] ∧
      y1.checkpoints.length = ops1.countP isCkpt ∧
      y2.checkpoints.length = ops1.countP isCkpt + ops2.countP isCkpt ∧
      (∀ a ∈ y1.dharmaAlerts, a ∈ y2.dharmaAlerts) ∧
      (∀ i ∈ y1.milestones.map (fun m => m.id),
          i ∈ y2.milestones.map (fun m => m.id)) := by
  have hc0 : (sysInit mcfg scfg kcfg dcfg).currentYatra = none := rfl
  have hkey0 : sysKeysAreIds (sysInit mcfg scfg kcfg dcfg) := by
    intro p hp
    simp [sysInit] at hp
  have hL : runSystem (sysInit mcfg scfg kcfg dcfg)
      (SysOp.start t0 s1 :: ops1 ++ SysOp.stop t1 :: SysOp.start t2 s2 ::
        ops2 ++ [SysOp.stop t3])
      = stepSystem
          (runSystem
            (stepSystem
              (stepSystem
                (runSystem
                  (stepSystem (sysInit mcfg scfg kcfg dcfg) (SysOp.start t0 s1))
                  ops1)
                (SysOp.stop t1))
              (SysOp.start t2 s2))
            ops2)
          (SysOp.stop t3) := by
    simp only [runSystem_cons, runSystem_append, runSystem_nil]
  obtain ⟨a1, a2, a3, a4, a5⟩ :=
    stepSystem_start_fields (sysInit mcfg scfg kcfg dcfg) hc0 t0 s1
  have hkeyA := stepSystem_keysAreIds (sysInit mcfg scfg kcfg dcfg)
    (SysOp.start t0 s1) hkey0
  set stA := stepSystem (sysInit mcfg scfg kcfg dcfg) (SysOp.start t0 s1)
    with hstAdef
  obtain ⟨b1, b2, b3, ⟨n1, b4⟩, b5⟩ := runSystem_mid_fields ops1 h1 stA
  have hkeyB := runSystem_keysAreIds ops1 stA hkeyA
  set stB := runSystem stA ops1 with hstBdef
  have hsomeB : stB.currentYatra.isSome = true := by rw [b2, a5]
  obtain ⟨ya, hya⟩ := Option.isSome_iff_exists.mp hsomeB
  have hstopB := stepSystem_stop_eq stB ya hya t1
  have hkeyC := stepSystem_keysAreIds stB (SysOp.stop t1) hkeyB
  set stC := stepSystem stB (SysOp.stop t1) with hstCdef
  have hcC : stC.currentYatra = none := by rw [hstopB]
  have hsuC : stC.sutra = stB.sutra := by rw [hstopB]
  have hkaC : stC.karma = stB.karma := by rw [hstopB]
  have hdhC : stC.dharma = stB.dharma := by rw [hstopB]
  have hlogC : stC.endedLog = stB.endedLog ++
      [{ ya with
         endedAt := some t1
         checkpoints := getCheckpoints stB.sutra
         milestones := getMilestones stB.karma
         dharmaAlerts := getAlerts stB.dharma }] := by rw [hstopB]
  obtain ⟨c1, c2, c3, c4, c5⟩ := stepSystem_start_fields stC hcC t2 s2
  have hkeyD := stepSystem_keysAreIds stC (SysOp.start t2 s2) hkeyC
  set stD := stepSystem stC (SysOp.start t2 s2) with hstDdef
  obtain ⟨d1, d2, d3, ⟨n2, d4⟩, d5⟩ := runSystem_mid_fields ops2 h2 stD
  have hkeyE := runSystem_keysAreIds ops2 stD hkeyD
  set stE := runSystem stD ops2 with hstEdef
  have hsomeE : stE.currentYatra.isSome = true := by rw [d2, c5]
  obtain ⟨yb, hyb⟩ := Option.isSome_iff_exists.mp hsomeE
  have hstopE := stepSystem_stop_eq stE yb hyb t3
  refine ⟨{ ya with
            endedAt := some t1
            checkpoints := getCheckpoints stB.sutra
            milestones := getMilestones stB.karma
            dharmaAlerts := getAlerts stB.dharma },
          { yb with
            endedAt := some t3
            checkpoints := getCheckpoints stE.sutra
            milestones := getMilestones stE.karma
            dharmaAlerts := getAlerts stE.dharma }, ?_, ?_, ?_, ?_, ?_⟩
  · rw [hL, hstopE]
    show stE.endedLog ++ _ = _
    rw [d3, c4, hlogC, b3, a4]
    rfl
  · show (getCheckpoints stB.sutra).length = _
    show stB.sutra.checkpoints.length = _
    rw [b1, a1]
    simp [sysInit]
  · show (getCheckpoints stE.sutra).length = _
    show stE.sutra.checkpoints.length = _
    rw [d1, c1, hsuC, b1, a1]
    simp [sysInit]
  · intro a ha
    show a ∈ stE.dharma.alerts
    rw [d4, c3, hdhC]
    exact List.mem_append.mpr (Or.inl ha)
  · intro i hi
    have hi' : i ∈ (getMilestones stB.karma).map (fun m => m.id) := hi
    rw [getMilestones_ids stB.karma hkeyB] at hi'
    show i ∈ (getMilestones stE.karma).map (fun m => m.id)
    rw [getMilestones_ids stE.karma hkeyE]
    refine d5 i ?_
    rw [c2, hkaC]
    exact hi'

/-- Witness for C10: two checkpoint calls in the first session and one in
the second. -/
theorem checkpoints_accumulate_across_sessions_witness :
    ∃ y1 y2,
      (runSystem (sysInit mcfgEx scfgEx kcfgEx dcfgEx)
          (SysOp.start 0 none ::
            [SysOp.checkpoint 1 none [] none, SysOp.checkpoint 2 none [] none] ++
            SysOp.stop 10 :: SysOp.start 20 none ::
            [SysOp.checkpoint 21 none [] none] ++ [SysOp.stop 30])).endedLog
        = [y1, y2] ∧
      y1.checkpoints.length =
        ([SysOp.checkpoint 1 none [] none,
          SysOp.checkpoint 2 none [] none].countP isCkpt) ∧
      y2.checkpoints.length =
        ([SysOp.checkpoint 1 none [] none,
          SysOp.checkpoint 2 none [] none].countP isCkpt) +
        ([SysOp.checkpoint 21 none [] none].countP isCkpt) ∧
      (∀ a ∈ y1.dharmaAlerts, a ∈ y2.dharmaAlerts) ∧
      (∀ i ∈ y1.milestones.map (fun m => m.id),
          i ∈ y2.milestones.map (fun m => m.id)) :=
  checkpoints_accumulate_across_sessions mcfgEx scfgEx kcfgEx dcfgEx
    [SysOp.checkpoint 1 none [] none, SysOp.checkpoint 2 none [] none]
    [SysOp.checkpoint 21 none [] none] 0 10 20 30 none none
    (by decide) (by decide)

end Tridishti

